import Mathlib

/-!
Verification development for the ad-creative compositor repository
(`app.py`, `logic_image_edit.py`, `logic_image_gen.py`, `logic_text.py`).

Modelling conventions:
* Python `float` arithmetic is modelled exactly over `ℚ`; at every concrete
  input used below the IEEE-754 double computation and the exact rational
  computation produce the same value of the Python `int(...)`, which was checked
  against the binary expansions by hand.
* Python `int(x)` (truncation toward zero) is `pyInt`; Python `//` on
  integers (floor division) is `Int.fdiv`.
* Pillow images are modelled as a width, a height, a mode, and a total pixel
  function with channels normalized to rationals (255 ↦ 1); the Pillow
  primitives used by the repository (`convert`, `copy`, `new`, `paste` with an
  alpha mask, `alpha_composite`, `resize`) are modelled by their documented
  semantics.  The LANCZOS resampling kernel of `resize` is not modelled
  (only the target dimensions of `resize` are the subject of any claim);
  the model uses nearest-neighbour sampling as a stand-in.
* External service calls (`requests`, the Gemini call, Streamlit UI) are
  modelled as explicit inputs describing their outcome.  `st.stop()` is
  modelled, per the documented Streamlit semantics, as immediate termination of
  the run (Streamlit raises a `BaseException`-derived control exception that
  user-level `except Exception` blocks do not intercept).
-/

/-- Python `int(q)`: truncation toward zero. -/
def pyInt (q : ℚ) : ℤ := if q < 0 then -⌊-q⌋ else ⌊q⌋

theorem pyInt_eq_floor {q : ℚ} (h : 0 ≤ q) : pyInt q = ⌊q⌋ := by
  unfold pyInt
  rw [if_neg (not_lt.2 h)]

theorem pyInt_eq_of (q : ℚ) (z : ℤ) (hz : 0 ≤ z) (h0 : (z : ℚ) ≤ q)
    (h1 : q < z + 1) : pyInt q = z := by
  have hq : 0 ≤ q := le_trans (by exact_mod_cast hz) h0
  rw [pyInt_eq_floor hq]
  exact Int.floor_eq_iff.mpr ⟨h0, h1⟩

theorem abs_pyInt_sub_le (q : ℚ) : |((pyInt q : ℤ) : ℚ) - q| ≤ 1 := by
  unfold pyInt
  by_cases h : q < 0
  · rw [if_pos h, Int.floor_neg]
    have h1 : q ≤ (⌈q⌉ : ℚ) := Int.le_ceil q
    have h2 : (⌈q⌉ : ℚ) < q + 1 := Int.ceil_lt_add_one q
    rw [abs_le]
    push_cast
    constructor <;> linarith
  · rw [if_neg h]
    have h1 : ((⌊q⌋ : ℤ) : ℚ) ≤ q := Int.floor_le q
    have h2 : q < (⌊q⌋ : ℚ) + 1 := Int.lt_floor_add_one q
    rw [abs_le]
    constructor <;> linarith

/-- Target size and paste position for an overlay, all in pixels.
`w`,`h` are the dimensions passed to `resize`, `(x, y)` the paste position. -/
structure Placement where
  w : ℤ
  h : ℤ
  x : ℤ
  y : ℤ
deriving DecidableEq, Repr

/-- The branch condition of `logic_image_edit.py` line 43:
`product_target_width > bg_width * 0.9`. -/
def productCapped (bgW bgH pw ph : ℕ) (product_size_ratio : ℚ) : Prop :=
  let th : ℤ := pyInt ((bgH : ℚ) * product_size_ratio)
  let aspect : ℚ := (pw : ℚ) / (ph : ℚ)
  let tw : ℤ := pyInt ((th : ℚ) * aspect)
  (bgW : ℚ) * (9/10) < (tw : ℚ)

instance (bgW bgH pw ph : ℕ) (r : ℚ) : Decidable (productCapped bgW bgH pw ph r) := by
  unfold productCapped
  exact inferInstance

/-- Product geometry of `create_composite`, `logic_image_edit.py` lines 36-51:
target height `int(bg_height * product_size_ratio)`, target width
`int(product_target_height * product_aspect)`, capped at `int(bg_width * 0.9)`
(with height recomputed), position `((bg_width - w) // 2,
bg_height - h - int(bg_height * 0.05))`. -/
def productPlacement (bgW bgH pw ph : ℕ) (product_size_ratio : ℚ) : Placement :=
  let th : ℤ := pyInt ((bgH : ℚ) * product_size_ratio)
  let aspect : ℚ := (pw : ℚ) / (ph : ℚ)
  let tw : ℤ := pyInt ((th : ℚ) * aspect)
  if productCapped bgW bgH pw ph product_size_ratio then
    let tw2 : ℤ := pyInt ((bgW : ℚ) * (9/10))
    let th2 : ℤ := pyInt ((tw2 : ℚ) / aspect)
    ⟨tw2, th2, Int.fdiv ((bgW : ℤ) - tw2) 2,
      (bgH : ℤ) - th2 - pyInt ((bgH : ℚ) * (5/100))⟩
  else
    ⟨tw, th, Int.fdiv ((bgW : ℤ) - tw) 2,
      (bgH : ℤ) - th - pyInt ((bgH : ℚ) * (5/100))⟩

/-- Logo geometry of `create_composite`, `logic_image_edit.py` lines 60-69:
target width `int(bg_width * logo_size_ratio)`, target height
`int(logo_target_width / logo_aspect)`, position
`(bg_width - w - margin, margin)` with `margin = int(bg_width * 0.02)`. -/
def logoPlacement (bgW bgH lw lh : ℕ) (logo_size_ratio : ℚ) : Placement :=
  let tw : ℤ := pyInt ((bgW : ℚ) * logo_size_ratio)
  let aspect : ℚ := (lw : ℚ) / (lh : ℚ)
  let th : ℤ := pyInt ((tw : ℚ) / aspect)
  let margin : ℤ := pyInt ((bgW : ℚ) * (2/100))
  ⟨tw, th, (bgW : ℤ) - tw - margin, margin⟩

/-- A pixel: red, green, blue, alpha channels, normalized so 255 ↦ 1. -/
structure Pix where
  r : ℚ
  g : ℚ
  b : ℚ
  a : ℚ
deriving DecidableEq, Repr

/-- The Pillow color modes the repository distinguishes (RGB vs RGBA). -/
inductive Mode where
  | RGB
  | RGBA
deriving DecidableEq, Repr

/-- A Pillow image: dimensions, mode, and a total pixel function (meaningful on
`x < width`, `y < height`). -/
structure Img where
  width : ℕ
  height : ℕ
  mode : Mode
  px : ℕ → ℕ → Pix

/-- Model of `image.convert(RGBA)`: images lacking an alpha channel become
fully opaque. -/
def Img.convertRGBA (img : Img) : Img :=
  { img with
    mode := Mode.RGBA
    px := fun x y =>
      let p := img.px x y
      match img.mode with
      | Mode.RGBA => p
      | Mode.RGB => { p with a := 1 } }

/-- Model of `Image.new(RGBA, size, color)`. -/
def Img.mkNew (w h : ℕ) (c : Pix) : Img := ⟨w, h, Mode.RGBA, fun _ _ => c⟩

/-- One channel of `Image.paste` blending with a mask value `m`:
`base*(1-m) + overlay*m`. -/
def blendCh (base ov m : ℚ) : ℚ := base * (1 - m) + ov * m

/-- Model of `base.paste(overlay, position, overlay)`: inside the pasted
rectangle each channel (alpha included) is blended against the mask, which
for an RGBA mask is the alpha band of the overlay; outside it the base is
untouched.  Pillow clips
the rectangle to the base image, which the pixel-function model reflects
implicitly. -/
def Img.pasteMasked (base overlay : Img) (pos : ℤ × ℤ) : Img :=
  { base with
    px := fun x y =>
      if pos.1 ≤ (x : ℤ) ∧ (x : ℤ) < pos.1 + overlay.width ∧
         pos.2 ≤ (y : ℤ) ∧ (y : ℤ) < pos.2 + overlay.height then
        let p := base.px x y
        let q := overlay.px ((x : ℤ) - pos.1).toNat ((y : ℤ) - pos.2).toNat
        ⟨blendCh p.r q.r q.a, blendCh p.g q.g q.a, blendCh p.b q.b q.a,
          blendCh p.a q.a q.a⟩
      else base.px x y }

/-- Straight-alpha "over" blending of one source pixel onto one destination
pixel, as performed per pixel by `Image.alpha_composite`:
`out_a = src_a + dst_a*(1-src_a)`;
`out_rgb = (src_rgb*src_a + dst_rgb*dst_a*(1-src_a)) / out_a`, the destination
being preserved where the blended alpha vanishes. -/
def overPix (dst src : Pix) : Pix :=
  let oa := src.a + dst.a * (1 - src.a)
  if oa = 0 then dst
  else
    ⟨(src.r * src.a + dst.r * dst.a * (1 - src.a)) / oa,
     (src.g * src.a + dst.g * dst.a * (1 - src.a)) / oa,
     (src.b * src.a + dst.b * dst.a * (1 - src.a)) / oa,
     oa⟩

/-- Model of `Image.alpha_composite(dst, src)` for images of equal size (the
only way the repository calls it); the result is RGBA with the size of the
destination. -/
def alphaComposite (dst src : Img) : Img :=
  ⟨dst.width, dst.height, Mode.RGBA, fun x y => overPix (dst.px x y) (src.px x y)⟩

/-- Model of `image.resize((w, h), LANCZOS)`: dimension-faithful model; the LANCZOS
kernel is external to the repository and no claim concerns resized pixel
values, so nearest-neighbour sampling stands in for the resampling filter. -/
def Img.resizeTo (img : Img) (w h : ℕ) : Img :=
  ⟨w, h, img.mode, fun x y => img.px (x * img.width / w) (y * img.height / h)⟩

/-- Model of `_prepare_image`, `logic_image_edit.py` lines 77-95 (with the two
relevant modes of this repository, every branch is a conversion to RGBA). -/
def prepare_image (img : Img) : Img :=
  if img.mode ≠ Mode.RGBA then img.convertRGBA else img

/-- Model of `_paste_with_alpha`, `logic_image_edit.py` lines 98-116: paste
the overlay onto a fresh fully transparent canvas with the size of the base,
then
alpha-composite that canvas over the base. -/
def paste_with_alpha (base overlay : Img) (pos : ℤ × ℤ) : Img :=
  let temp := Img.pasteMasked (Img.mkNew base.width base.height ⟨0, 0, 0, 0⟩) overlay pos
  alphaComposite base temp

/-- Model of `create_composite`, `logic_image_edit.py` lines 9-74. -/
def create_composite (background product logo : Img)
    (product_size_ratio logo_size_ratio : ℚ) : Img :=
  let background :=
    if background.mode ≠ Mode.RGBA then background.convertRGBA else background
  let composite := background
  let product := prepare_image product
  let bg_width := composite.width
  let bg_height := composite.height
  let pp := productPlacement bg_width bg_height product.width product.height
    product_size_ratio
  let product_resized := product.resizeTo pp.w.toNat pp.h.toNat
  let composite := paste_with_alpha composite product_resized (pp.x, pp.y)
  let logo := prepare_image logo
  let lp := logoPlacement bg_width bg_height logo.width logo.height
    logo_size_ratio
  let logo_resized := logo.resizeTo lp.w.toNat lp.h.toNat
  paste_with_alpha composite logo_resized (lp.x, lp.y)

/-- The Python `\s` whitespace class over the ASCII range (`str.strip` and the
parsing regexes of `logic_text.py` only ever meet ASCII here). -/
def isSpaceChar (c : Char) : Bool :=
  c == ' ' || c == '\t' || c == '\n' || c == '\r' || c == '\x0b' || c == '\x0c'

def dropLeadingWS : List Char → List Char
  | [] => []
  | c :: cs => if isSpaceChar c then dropLeadingWS cs else c :: cs

/-- Python `str.strip()`. -/
def trimChars (cs : List Char) : List Char :=
  (dropLeadingWS (dropLeadingWS cs.reverse).reverse)

/-- Model of the Python newline split `str.split`. -/
def splitOnNl : List Char → List (List Char)
  | [] => [[]]
  | c :: cs =>
    if c = '\n' then [] :: splitOnNl cs
    else
      match splitOnNl cs with
      | [] => [[c]]
      | l :: ls => (c :: l) :: ls

/-- The substitution on one line for the pattern
`^[\d\-\*\•]\s*\.?\s*` of `logic_text.py` line 120: one character of the
class, then optional whitespace, an optional dot, and optional whitespace,
are removed from the front (the regex matches at most once, being anchored). -/
def stripNumbering : List Char → List Char
  | [] => []
  | c :: cs =>
    if c.isDigit || c == '-' || c == '*' || c == '•' then
      let rest := dropLeadingWS cs
      match rest with
      | '.' :: r => dropLeadingWS r
      | r => r
    else c :: cs

def dropHashes : List Char → List Char
  | '#' :: r => dropHashes r
  | r => r

/-- The substitution for the pattern `^\*\*|^\*|^#+\s*` of `logic_text.py`
line 123 (alternatives tried left to right at the start of the line). -/
def stripMd (cs : List Char) : List Char :=
  match cs with
  | '*' :: '*' :: r => r
  | '*' :: r => r
  | '#' :: _ => dropLeadingWS (dropHashes cs)
  | _ => cs

/-- The line-parsing loop of `generate_prompts`, `logic_text.py` lines 114-126:
strip each line, skip empties, remove numbering and markdown, keep cleaned
lines longer than 10 characters. -/
def parseLines (lines : List (List Char)) : List String :=
  lines.foldl
    (fun acc line =>
      let cleaned := trimChars line
      if cleaned.isEmpty then acc
      else
        let cleaned := stripMd (stripNumbering cleaned)
        if !cleaned.isEmpty && cleaned.length > 10 then
          acc ++ [String.mk (trimChars cleaned)]
        else acc)
    []

/-- The hard-coded fallback prompts of `logic_text.py` lines 150-156 (the
`except` branch of `generate_prompts`). -/
def fallback_prompts (d : String) : List String :=
  ["A modern minimalist studio with soft lighting, perfect for showcasing " ++ d,
   "A vibrant contemporary setting with natural elements, ideal for " ++ d,
   "A luxurious elegant environment with sophisticated lighting, showcasing " ++ d,
   "A dynamic urban backdrop with modern aesthetics, featuring " ++ d,
   "A serene natural setting with professional lighting, highlighting " ++ d]

/-- The three templated base prompts of `logic_text.py` lines 131-135, used
when parsing yielded nothing. -/
def base_fallbacks (d : String) : List String :=
  ["A professional setting showcasing " ++ d,
   "A modern environment featuring " ++ d,
   "An elegant backdrop for " ++ d]

/-- The `while len(prompts) < num_prompts` padding loop of `logic_text.py`
lines 136-141, run on fuel equal to the number of missing prompts (the loop
appends exactly one prompt per iteration). -/
def padFrom (base : List String) : ℕ → List String → List String
  | 0, acc => acc
  | k + 1, acc =>
    let idx := acc.length % base.length
    let v := base.getD idx ""
    let v :=
      if base.length ≤ acc.length then
        v ++ ", variation " ++ toString (acc.length - base.length + 1)
      else v
    padFrom base k (acc ++ [v])

/-- Model of `generate_prompts`, `logic_text.py` lines 80-156. `call` is the outcome
of `_call_gemini` (an external HTTP call): `.ok` carries the stripped response
text, `.error` the message of any raised exception. -/
def generate_prompts (product_description : String) (num_prompts : ℕ)
    (call : Except String String) : List String :=
  match call with
  | Except.error _ => fallback_prompts product_description
  | Except.ok response_text =>
    if response_text = "" then []
    else
      let lines := splitOnNl (trimChars response_text.data)
      let prompts := parseLines lines
      let prompts :=
        if prompts.length < num_prompts then
          let base :=
            if prompts.isEmpty then base_fallbacks product_description
            else prompts
          padFrom base (num_prompts - prompts.length) prompts
        else prompts
      prompts.take num_prompts

/-- The parts of a Stability API response `generate_background` inspects:
HTTP status, the optional `artifacts` array (base64 payloads), the optional
JSON `message` field, and the raw body text. -/
structure ApiResponse where
  status : ℕ
  artifacts : Option (List String)
  jsonMessage : Option String
  text : String

/-- Outcome of the `requests.post` call in `generate_background`: a response,
a raised `requests.exceptions.RequestException`, or any other exception
raised inside the `try` block. -/
inductive CallOutcome where
  | response (r : ApiResponse)
  | requestExc (e : String)
  | otherExc (e : String)

/-- Model of `generate_background`, `logic_image_gen.py` lines 48-138.  `decode`
models `base64.b64decode` plus `Image.open` on the first artifact (external
code; a decoding exception lands in the generic `except Exception` branch);
`apiKey` models the module-level `STABILITY_API_KEY` (absent and empty are
both falsy in `if not STABILITY_API_KEY`). -/
def generate_background (decode : String → Except String Img)
    (apiKey : Option String) (call : CallOutcome) : Option Img × Option String :=
  if apiKey.getD "" = "" then
    (none, some "STABILITY_API_KEY not found in environment variables")
  else
    match call with
    | CallOutcome.requestExc e => (none, some ("Network error: " ++ e))
    | CallOutcome.otherExc e => (none, some ("Error generating background: " ++ e))
    | CallOutcome.response r =>
      if r.status = 200 then
        match r.artifacts with
        | some (b64 :: _) =>
          match decode b64 with
          | Except.ok img => (some img, none)
          | Except.error e =>
            (none, some ("Error generating background: " ++ e))
        | _ => (none, some "No artifacts in API response")
      else if r.status = 402 then
        (none, some "Stable Diffusion 3.5 Medium model is not accessible. Your credits may have ended. Please check your Stability AI account balance.")
      else if r.status = 401 then
        (none, some "Invalid API key. Please check your STABILITY_API_KEY in the .env file.")
      else if r.status = 429 then
        (none, some "Rate limit exceeded. Please wait a moment and try again.")
      else
        let errorText := match r.jsonMessage with
          | some m => m
          | none => r.text
        (none, some ("API Error (" ++ toString r.status ++ "): " ++ errorText))

/-- What `generate_background` produced for one variation, as consumed by the
loop in `app.py` line 160 (`.ok` when `background is not None`). -/
inductive GenOutcome where
  | ok (background : Img)
  | err (msg : String)

def GenOutcome.isErr : GenOutcome → Bool
  | GenOutcome.ok _ => false
  | GenOutcome.err _ => true

def charsStartWith : List Char → List Char → Bool
  | _, [] => true
  | [], _ :: _ => false
  | a :: as, b :: bs => a == b && charsStartWith as bs

def charsContain : List Char → List Char → Bool
  | [], needle => needle.isEmpty
  | a :: as, needle => charsStartWith (a :: as) needle || charsContain as needle

/-- Python `needle in hay`. -/
def containsSub (hay needle : String) : Bool := charsContain hay.data needle.data

def lowerStr (s : String) : String := String.mk (s.data.map Char.toLower)

/-- The fatal-error sniffing of `app.py` line 166:
`"credits" in error_message.lower() or "not accessible" in error_message.lower()`. -/
def creditsFatal (m : String) : Bool :=
  containsSub (lowerStr m) "credits" || containsSub (lowerStr m) "not accessible"

/-- One successful variation as accumulated by `app.py` lines 179-183. -/
structure Variation where
  image : Img
  caption : String
  num : ℕ

/-- The two mutable lists of the generation loop, `app.py` lines 149-150. -/
structure LoopState where
  composites : List Variation
  failed : List ℕ

/-- Inputs fixed across loop iterations: the prepared product and logo images
and the caption list. -/
structure RunCtx where
  product : Img
  logo : Img
  captions : List String

/-- How the loop ended: normally, or via the `st.stop()` of `app.py` line 168
(Streamlit control exception, modelled as immediate termination). -/
inductive LoopResult where
  | completed (s : LoopState)
  | aborted (s : LoopState) (msg : String)

/-- The per-variation loop of `app.py` lines 152-191, at index `i` with
state `s`: a `None` background appends `i+1` to `failed_generations`, then a
credits/not-accessible message aborts the run and any other failure skips to
the next variation; a successful background is composited
(`create_composite` with the default ratios 0.4 and 0.15) and stored with
caption `captions[i] if i < len(captions) else captions[-1]`. -/
def runLoopAux (ctx : RunCtx) : ℕ → LoopState → List GenOutcome → LoopResult
  | _, s, [] => LoopResult.completed s
  | i, s, GenOutcome.ok bg :: rest =>
    let comp := create_composite bg ctx.product ctx.logo (2/5) (3/20)
    let cap :=
      if i < ctx.captions.length then ctx.captions.getD i ""
      else ctx.captions.getLastD ""
    runLoopAux ctx (i + 1)
      { s with composites := s.composites ++ [⟨comp, cap, i + 1⟩] } rest
  | i, s, GenOutcome.err m :: rest =>
    let s2 : LoopState := { s with failed := s.failed ++ [i + 1] }
    if m ≠ "" then
      if creditsFatal m then LoopResult.aborted s2 m
      else runLoopAux ctx (i + 1) s2 rest
    else runLoopAux ctx (i + 1) s2 rest

/-- Overall outcome of the run after the loop: an error shown via `st.error`,
or the ZIP archive offered for download (modelled by its entry names). -/
inductive AppResult where
  | failure (msg : String)
  | archive (entries : List String)

/-- Model of `app.py` lines 196-253 after the loop: an aborted run surfaced the error
(`st.error(f"❌ {error_message}")` then `st.stop()`); an empty composites list
is fatal (lines 196-198); otherwise the ZIP is built with one
`ad_variation_{n}.png` per composite plus `captions.txt` (lines 226-242). -/
def finishRun (r : LoopResult) : AppResult :=
  match r with
  | LoopResult.aborted _ m => AppResult.failure ("❌ " ++ m)
  | LoopResult.completed s =>
    if s.composites.isEmpty then
      AppResult.failure "❌ Failed to generate any variations. Please check your API keys and try again."
    else
      AppResult.archive
        ((s.composites.map fun v => "ad_variation_" ++ toString v.num ++ ".png")
          ++ ["captions.txt"])

/-! Evaluation lemmas at the concrete scenarios of the spec. -/

theorem uncapped_1024_square : ¬ productCapped 1024 1024 500 500 (2/5) := by
  have e1 : pyInt ((1024 : ℚ) * (2/5)) = 409 :=
    pyInt_eq_of _ 409 (by norm_num) (by norm_num) (by norm_num)
  have e2 : pyInt ((409 : ℚ) * (500 / 500)) = 409 :=
    pyInt_eq_of _ 409 (by norm_num) (by norm_num) (by norm_num)
  simp only [productCapped]
  push_cast
  rw [e1]
  push_cast
  rw [e2]
  norm_num

theorem eval_product_1024 :
    productPlacement 1024 1024 500 500 (2/5) = ⟨409, 409, 307, 564⟩ := by
  have e1 : pyInt ((1024 : ℚ) * (2/5)) = 409 :=
    pyInt_eq_of _ 409 (by norm_num) (by norm_num) (by norm_num)
  have e2 : pyInt ((409 : ℚ) * (500 / 500)) = 409 :=
    pyInt_eq_of _ 409 (by norm_num) (by norm_num) (by norm_num)
  have e3 : pyInt ((1024 : ℚ) * (5/100)) = 51 :=
    pyInt_eq_of _ 51 (by norm_num) (by norm_num) (by norm_num)
  simp only [productPlacement]
  rw [if_neg uncapped_1024_square]
  push_cast
  rw [e1]
  push_cast
  rw [e2, e3]
  decide

theorem eval_logo_1024 :
    logoPlacement 1024 1024 200 100 (3/20) = ⟨153, 76, 851, 20⟩ := by
  have e1 : pyInt ((1024 : ℚ) * (3/20)) = 153 :=
    pyInt_eq_of _ 153 (by norm_num) (by norm_num) (by norm_num)
  have e2 : pyInt ((153 : ℚ) / (200 / 100)) = 76 :=
    pyInt_eq_of _ 76 (by norm_num) (by norm_num) (by norm_num)
  have e3 : pyInt ((1024 : ℚ) * (2/100)) = 20 :=
    pyInt_eq_of _ 20 (by norm_num) (by norm_num) (by norm_num)
  simp only [logoPlacement]
  push_cast
  rw [e1]
  push_cast
  rw [e2, e3]
  decide

theorem capped_100_wide : productCapped 100 100 700 100 (2/5) := by
  have e1 : pyInt ((100 : ℚ) * (2/5)) = 40 :=
    pyInt_eq_of _ 40 (by norm_num) (by norm_num) (by norm_num)
  have e2 : pyInt ((40 : ℚ) * (700 / 100)) = 280 :=
    pyInt_eq_of _ 280 (by norm_num) (by norm_num) (by norm_num)
  simp only [productCapped]
  push_cast
  rw [e1]
  push_cast
  rw [e2]
  norm_num

theorem eval_product_100 :
    productPlacement 100 100 700 100 (2/5) = ⟨90, 12, 5, 83⟩ := by
  have e3 : pyInt ((100 : ℚ) * (9/10)) = 90 :=
    pyInt_eq_of _ 90 (by norm_num) (by norm_num) (by norm_num)
  have e4 : pyInt ((90 : ℚ) / (700 / 100)) = 12 :=
    pyInt_eq_of _ 12 (by norm_num) (by norm_num) (by norm_num)
  have e5 : pyInt ((100 : ℚ) * (5/100)) = 5 :=
    pyInt_eq_of _ 5 (by norm_num) (by norm_num) (by norm_num)
  simp only [productPlacement]
  rw [if_pos capped_100_wide]
  push_cast
  rw [e3]
  push_cast
  rw [e4, e5]
  decide

theorem uncapped_100_square : ¬ productCapped 100 100 1 1 (2/5) := by
  have e1 : pyInt ((100 : ℚ) * (2/5)) = 40 :=
    pyInt_eq_of _ 40 (by norm_num) (by norm_num) (by norm_num)
  have e2 : pyInt ((40 : ℚ) * (1 / 1)) = 40 :=
    pyInt_eq_of _ 40 (by norm_num) (by norm_num) (by norm_num)
  simp only [productCapped]
  push_cast
  rw [e1]
  push_cast
  rw [e2]
  norm_num

/-- C1: for every background size and product size, with the default
product_size_ratio 0.4, the product width computed by create_composite
(the `w` field of `productPlacement`, which is the width passed to `resize`
after the cap branch) never exceeds 0.9 times the background width. -/
theorem c1_product_width_never_exceeds (W H pw ph : ℕ) :
    (((productPlacement W H pw ph (2/5)).w : ℤ) : ℚ) ≤ (9/10) * (W : ℚ) := by
  simp only [productPlacement]
  by_cases hc : productCapped W H pw ph (2/5)
  · rw [if_pos hc]
    dsimp only
    have h0 : (0 : ℚ) ≤ (W : ℚ) * (9/10) := by positivity
    rw [pyInt_eq_floor h0]
    have h1 := Int.floor_le ((W : ℚ) * (9/10))
    linarith
  · rw [if_neg hc]
    dsimp only
    simp only [productCapped, not_lt] at hc
    linarith

/-- C2: for all inputs and ratios, the image returned by create_composite has
exactly the dimensions of the background input and is in RGBA mode. -/
theorem c2_composite_dims_and_mode (bg p l : Img) (r1 r2 : ℚ) :
    (create_composite bg p l r1 r2).width = bg.width ∧
    (create_composite bg p l r1 r2).height = bg.height ∧
    (create_composite bg p l r1 r2).mode = Mode.RGBA := by
  by_cases h : bg.mode = Mode.RGBA <;>
    simp [create_composite, paste_with_alpha, alphaComposite, Img.convertRGBA, h]

/-- C3 counterexample: on a 1024 by 1024 background with a square product and
product_size_ratio 0.4, the code does not produce the claimed 410 by 410
placement at y = 563: Python int() truncates 409.6 to 409 (and the bottom
margin int(51.2) to 51, so y = 1024 - 409 - 51 = 564). -/
theorem c3_counterexample :
    productPlacement 1024 1024 500 500 (2/5) ≠ ⟨410, 410, 307, 563⟩ := by
  rw [eval_product_1024]
  decide

/-- C3 amended: create_composite computes product target height
int(bg_height * ratio) and target width int(target_height * aspect)
(truncation, not rounding), places the product at
x = (bg_width - w) // 2 and y = bg_height - h - int(0.05 * bg_height);
for the 1024 by 1024 scenario with a square product this gives a 409 by 409
product at x = 307, y = 564. -/
theorem c3_product_geometry :
    (∀ (W H pw ph : ℕ) (r : ℚ), ¬ productCapped W H pw ph r →
      productPlacement W H pw ph r =
        ⟨pyInt ((pyInt ((H : ℚ) * r) : ℚ) * ((pw : ℚ) / (ph : ℚ))),
         pyInt ((H : ℚ) * r),
         Int.fdiv ((W : ℤ) -
           pyInt ((pyInt ((H : ℚ) * r) : ℚ) * ((pw : ℚ) / (ph : ℚ)))) 2,
         (H : ℤ) - pyInt ((H : ℚ) * r) - pyInt ((H : ℚ) * (5/100))⟩) ∧
    productPlacement 1024 1024 500 500 (2/5) = ⟨409, 409, 307, 564⟩ := by
  constructor
  · intro W H pw ph r h
    simp only [productPlacement]
    rw [if_neg h]
  · exact eval_product_1024

/-- C3 witness: the general geometry formula instantiated at the uncapped
1024 by 1024 scenario. -/
theorem c3_product_geometry_witness :
    (¬ productCapped 1024 1024 500 500 (2/5)) ∧
    productPlacement 1024 1024 500 500 (2/5) =
      ⟨pyInt ((pyInt (((1024 : ℕ) : ℚ) * (2/5)) : ℚ) *
         (((500 : ℕ) : ℚ) / ((500 : ℕ) : ℚ))),
       pyInt (((1024 : ℕ) : ℚ) * (2/5)),
       Int.fdiv (((1024 : ℕ) : ℤ) -
         pyInt ((pyInt (((1024 : ℕ) : ℚ) * (2/5)) : ℚ) *
           (((500 : ℕ) : ℚ) / ((500 : ℕ) : ℚ)))) 2,
       ((1024 : ℕ) : ℤ) - pyInt (((1024 : ℕ) : ℚ) * (2/5)) -
         pyInt (((1024 : ℕ) : ℚ) * (5/100))⟩ :=
  ⟨uncapped_1024_square,
   c3_product_geometry.1 1024 1024 500 500 (2/5) uncapped_1024_square⟩

/-- C4 counterexample: on a 1024 by 1024 background with a 2:1 logo and
logo_size_ratio 0.15, the code does not produce the claimed 154 by 77 logo at
x = 850: Python int() truncates 153.6 to 153, 153/2 to 76 and the margin
int(20.48) to 20, so x = 1024 - 153 - 20 = 851. -/
theorem c4_counterexample :
    logoPlacement 1024 1024 200 100 (3/20) ≠ ⟨154, 77, 850, 20⟩ := by
  rw [eval_logo_1024]
  decide

/-- C4 amended: create_composite computes logo target width
int(bg_width * ratio) and target height int(target_width / aspect)
(truncation, not rounding), and places the logo at
x = bg_width - w - margin, y = margin with margin = int(0.02 * bg_width);
for the 1024 by 1024 scenario with a 2:1 logo this gives a 153 by 76 logo at
x = 851, y = 20. -/
theorem c4_logo_geometry :
    (∀ (W H lw lh : ℕ) (r : ℚ),
      logoPlacement W H lw lh r =
        ⟨pyInt ((W : ℚ) * r),
         pyInt ((pyInt ((W : ℚ) * r) : ℚ) / ((lw : ℚ) / (lh : ℚ))),
         (W : ℤ) - pyInt ((W : ℚ) * r) - pyInt ((W : ℚ) * (2/100)),
         pyInt ((W : ℚ) * (2/100))⟩) ∧
    logoPlacement 1024 1024 200 100 (3/20) = ⟨153, 76, 851, 20⟩ :=
  ⟨fun _ _ _ _ _ => rfl, eval_logo_1024⟩

/-- C5 counterexample: on a 100 by 100 background with a 700 by 100 product
(aspect ratio 7), the cap branch fires and the width-from-height relation of
the claim fails: the code resizes to 90 by 12 and |90 - 12*7| = 6 > 1. -/
theorem c5_counterexample :
    ¬ (|(((productPlacement 100 100 700 100 (2/5)).w : ℤ) : ℚ) -
         (((productPlacement 100 100 700 100 (2/5)).h : ℤ) : ℚ) *
           (((700 : ℕ) : ℚ) / ((100 : ℕ) : ℚ))| ≤ 1) := by
  rw [eval_product_100]
  push_cast
  norm_num

/-- C5 amended: in the default branch the product width is within one pixel of
height times aspect; in the capped branch it is the height that is within one
pixel of width divided by aspect (the claim had the width-from-height relation
in both branches); the logo height is within one pixel of width divided by
aspect. -/
theorem c5_aspect_ratio_tolerance :
    (∀ (W H pw ph : ℕ) (r : ℚ), ¬ productCapped W H pw ph r →
      |(((productPlacement W H pw ph r).w : ℤ) : ℚ) -
        (((productPlacement W H pw ph r).h : ℤ) : ℚ) *
          ((pw : ℚ) / (ph : ℚ))| ≤ 1) ∧
    (∀ (W H pw ph : ℕ) (r : ℚ), productCapped W H pw ph r →
      |(((productPlacement W H pw ph r).h : ℤ) : ℚ) -
        (((productPlacement W H pw ph r).w : ℤ) : ℚ) /
          ((pw : ℚ) / (ph : ℚ))| ≤ 1) ∧
    (∀ (W H lw lh : ℕ) (r : ℚ),
      |(((logoPlacement W H lw lh r).h : ℤ) : ℚ) -
        (((logoPlacement W H lw lh r).w : ℤ) : ℚ) /
          ((lw : ℚ) / (lh : ℚ))| ≤ 1) := by
  refine ⟨?_, ?_, ?_⟩
  · intro W H pw ph r h
    simp only [productPlacement]
    rw [if_neg h]
    exact abs_pyInt_sub_le _
  · intro W H pw ph r h
    simp only [productPlacement]
    rw [if_pos h]
    exact abs_pyInt_sub_le _
  · intro W H lw lh r
    simp only [logoPlacement]
    exact abs_pyInt_sub_le _

/-- C5 witness: the three parts instantiated at a square uncapped product, the
wide capped product, and the 2:1 logo. -/
theorem c5_aspect_ratio_tolerance_witness :
    ((¬ productCapped 100 100 1 1 (2/5)) ∧
      |(((productPlacement 100 100 1 1 (2/5)).w : ℤ) : ℚ) -
        (((productPlacement 100 100 1 1 (2/5)).h : ℤ) : ℚ) *
          (((1 : ℕ) : ℚ) / ((1 : ℕ) : ℚ))| ≤ 1) ∧
    (productCapped 100 100 700 100 (2/5) ∧
      |(((productPlacement 100 100 700 100 (2/5)).h : ℤ) : ℚ) -
        (((productPlacement 100 100 700 100 (2/5)).w : ℤ) : ℚ) /
          (((700 : ℕ) : ℚ) / ((100 : ℕ) : ℚ))| ≤ 1) ∧
    |(((logoPlacement 1024 1024 200 100 (3/20)).h : ℤ) : ℚ) -
      (((logoPlacement 1024 1024 200 100 (3/20)).w : ℤ) : ℚ) /
        (((200 : ℕ) : ℚ) / ((100 : ℕ) : ℚ))| ≤ 1 :=
  ⟨⟨uncapped_100_square,
    c5_aspect_ratio_tolerance.1 100 100 1 1 (2/5) uncapped_100_square⟩,
   ⟨capped_100_wide,
    c5_aspect_ratio_tolerance.2.1 100 100 700 100 (2/5) capped_100_wide⟩,
   c5_aspect_ratio_tolerance.2.2 1024 1024 200 100 (3/20)⟩

/-- Over-blending a fully transparent source pixel preserves the destination
pixel. -/
theorem overPix_transparent (d : Pix) : overPix d ⟨0, 0, 0, 0⟩ = d := by
  cases d with
  | mk r g b a =>
    simp only [overPix]
    by_cases ha : a = 0
    · subst ha
      norm_num
    · rw [if_neg (by simpa using ha)]
      field_simp

/-- Over-blending a fully opaque source pixel replaces the destination
pixel. -/
theorem overPix_opaque (d s : Pix) (hs : s.a = 1) : overPix d s = s := by
  cases s with
  | mk sr sg sb sa =>
    cases d with
    | mk dr dg db da =>
      simp only at hs
      subst hs
      simp [overPix]

/-- C6: pasting a fully transparent overlay with paste_with_alpha leaves every
base pixel unchanged, and a fully opaque overlay pixel replaces the base pixel
at its pasted position. -/
theorem c6_alpha_endpoints :
    (∀ (base overlay : Img) (pos : ℤ × ℤ),
      (∀ x y, (overlay.px x y).a = 0) →
      ∀ x y, (paste_with_alpha base overlay pos).px x y = base.px x y) ∧
    (∀ (base overlay : Img) (pos : ℤ × ℤ) (x y : ℕ),
      pos.1 ≤ (x : ℤ) → (x : ℤ) < pos.1 + overlay.width →
      pos.2 ≤ (y : ℤ) → (y : ℤ) < pos.2 + overlay.height →
      (overlay.px ((x : ℤ) - pos.1).toNat ((y : ℤ) - pos.2).toNat).a = 1 →
      (paste_with_alpha base overlay pos).px x y =
        overlay.px ((x : ℤ) - pos.1).toNat ((y : ℤ) - pos.2).toNat) := by
  constructor
  · intro base overlay pos h x y
    simp only [paste_with_alpha, alphaComposite, Img.pasteMasked, Img.mkNew]
    have htemp :
        (if pos.1 ≤ (x : ℤ) ∧ (x : ℤ) < pos.1 + overlay.width ∧
            pos.2 ≤ (y : ℤ) ∧ (y : ℤ) < pos.2 + overlay.height then
          let p := (⟨0, 0, 0, 0⟩ : Pix)
          let q := overlay.px ((x : ℤ) - pos.1).toNat ((y : ℤ) - pos.2).toNat
          (⟨blendCh p.r q.r q.a, blendCh p.g q.g q.a, blendCh p.b q.b q.a,
            blendCh p.a q.a q.a⟩ : Pix)
        else (⟨0, 0, 0, 0⟩ : Pix)) = (⟨0, 0, 0, 0⟩ : Pix) := by
      split
      · simp [blendCh, h]
      · rfl
    rw [htemp, overPix_transparent]
  · intro base overlay pos x y h1 h2 h3 h4 ha
    simp only [paste_with_alpha, alphaComposite, Img.pasteMasked, Img.mkNew]
    rw [if_pos ⟨h1, h2, h3, h4⟩]
    set q := overlay.px ((x : ℤ) - pos.1).toNat ((y : ℤ) - pos.2).toNat with hq
    have hblend :
        (⟨blendCh (0:ℚ) q.r q.a, blendCh 0 q.g q.a, blendCh 0 q.b q.a,
          blendCh 0 q.a q.a⟩ : Pix) = q := by
      cases hqv : q with
      | mk qr qg qb qa =>
        have : qa = 1 := by rw [hqv] at ha; exact ha
        subst this
        simp [blendCh]
    rw [hblend]
    exact overPix_opaque _ _ ha

/-- C6 witness: a transparent 1 by 1 overlay leaves a concrete base pixel
unchanged, and an opaque 1 by 1 overlay replaces it. -/
theorem c6_alpha_endpoints_witness :
    ((Img.mkNew 1 1 ⟨1, 0, 0, 0⟩).px 0 0).a = 0 ∧
    (paste_with_alpha (Img.mkNew 1 1 ⟨1/2, 1/3, 1/4, 1⟩)
      (Img.mkNew 1 1 ⟨1, 0, 0, 0⟩) (0, 0)).px 0 0 =
      (Img.mkNew 1 1 ⟨1/2, 1/3, 1/4, 1⟩).px 0 0 ∧
    ((Img.mkNew 1 1 ⟨0, 1, 0, 1⟩).px 0 0).a = 1 ∧
    (paste_with_alpha (Img.mkNew 1 1 ⟨1/2, 1/3, 1/4, 1⟩)
      (Img.mkNew 1 1 ⟨0, 1, 0, 1⟩) (0, 0)).px 0 0 =
      (Img.mkNew 1 1 ⟨0, 1, 0, 1⟩).px
        (((0 : ℕ) : ℤ) - (0 : ℤ)).toNat (((0 : ℕ) : ℤ) - (0 : ℤ)).toNat :=
  ⟨rfl,
   c6_alpha_endpoints.1 (Img.mkNew 1 1 ⟨1/2, 1/3, 1/4, 1⟩)
     (Img.mkNew 1 1 ⟨1, 0, 0, 0⟩) (0, 0) (fun _ _ => rfl) 0 0,
   rfl,
   c6_alpha_endpoints.2 (Img.mkNew 1 1 ⟨1/2, 1/3, 1/4, 1⟩)
     (Img.mkNew 1 1 ⟨0, 1, 0, 1⟩) (0, 0) 0 0
     (by simp [Img.mkNew]) (by simp [Img.mkNew]) (by simp [Img.mkNew])
     (by simp [Img.mkNew]) rfl⟩

/-- A concrete context for instantiating loop theorems. -/
def sampleCtx : RunCtx :=
  ⟨Img.mkNew 1 1 ⟨0, 0, 0, 0⟩, Img.mkNew 1 1 ⟨0, 0, 0, 0⟩, ["caption"]⟩

/-- C7: in the per-variation loop, an error message matching the
credits/not-accessible sniffing aborts the run immediately (the remaining
variations are never examined), while any other failure records the variation
in failed_generations and continues with the rest of the list. -/
theorem c7_credits_abort :
    (∀ (ctx : RunCtx) (i : ℕ) (s : LoopState) (m : String)
        (post : List GenOutcome),
      creditsFatal m = true →
      runLoopAux ctx i s (GenOutcome.err m :: post) =
        LoopResult.aborted { s with failed := s.failed ++ [i + 1] } m) ∧
    (∀ (ctx : RunCtx) (i : ℕ) (s : LoopState) (m : String)
        (rest : List GenOutcome),
      creditsFatal m = false →
      runLoopAux ctx i s (GenOutcome.err m :: rest) =
        runLoopAux ctx (i + 1) { s with failed := s.failed ++ [i + 1] } rest) := by
  constructor
  · intro ctx i s m post hf
    have hne : m ≠ "" := by
      intro h
      subst h
      exact absurd hf (by decide)
    simp [runLoopAux, hne, hf]
  · intro ctx i s m rest hf
    by_cases hne : m = ""
    · subst hne
      simp [runLoopAux]
    · simp [runLoopAux, hne, hf]

/-- C7 witness: a credits message aborts with the next variation untouched; a
rate-limit message records the failure and continues. -/
theorem c7_credits_abort_witness :
    (creditsFatal "Your credits may have ended" = true ∧
      runLoopAux sampleCtx 0 ⟨[], []⟩
        [GenOutcome.err "Your credits may have ended", GenOutcome.err "x"] =
        LoopResult.aborted ⟨[], [1]⟩ "Your credits may have ended") ∧
    (creditsFatal "Rate limit exceeded" = false ∧
      runLoopAux sampleCtx 0 ⟨[], []⟩ [GenOutcome.err "Rate limit exceeded"] =
        runLoopAux sampleCtx 1 ⟨[], [1]⟩ []) :=
  ⟨⟨by decide,
    c7_credits_abort.1 sampleCtx 0 ⟨[], []⟩ "Your credits may have ended"
      [GenOutcome.err "x"] (by decide)⟩,
   ⟨by decide,
    c7_credits_abort.2 sampleCtx 0 ⟨[], []⟩ "Rate limit exceeded" []
      (by decide)⟩⟩

theorem padFrom_length (base : List String) :
    ∀ (k : ℕ) (acc : List String),
      (padFrom base k acc).length = acc.length + k := by
  intro k
  induction k with
  | zero => intro acc; simp [padFrom]
  | succ n ih =>
    intro acc
    simp only [padFrom]
    rw [ih]
    simp
    omega

/-- C8 counterexample: with 7 prompts requested and a failing text-generation
call, generate_prompts returns the 5 hard-coded fallback prompts, not 7. -/
theorem c8_counterexample :
    (generate_prompts "Premium wireless headphones" 7
      (Except.error "Gemini network error")).length ≠ 7 := by
  decide

/-- C8 amended: when the text-generation call succeeds with non-empty text,
generate_prompts returns exactly the requested number of prompts (padding with
templated strings built from the product description as needed); when the
call raises, it returns the fixed list of five templated fallback prompts
regardless of the requested count; when the call succeeds with empty text, it
returns the empty list. -/
theorem c8_prompt_count :
    (∀ (d : String) (n : ℕ) (t : String), t ≠ "" →
      (generate_prompts d n (Except.ok t)).length = n) ∧
    (∀ (d : String) (n : ℕ) (e : String),
      generate_prompts d n (Except.error e) = fallback_prompts d) ∧
    (∀ (d : String) (n : ℕ), generate_prompts d n (Except.ok "") = []) := by
  refine ⟨?_, fun _ _ _ => rfl, fun _ _ => by simp [generate_prompts]⟩
  intro d n t ht
  simp only [generate_prompts]
  rw [if_neg ht]
  by_cases h : (parseLines (splitOnNl (trimChars t.data))).length < n
  · rw [if_pos h]
    rw [List.length_take, padFrom_length]
    omega
  · rw [if_neg h]
    rw [List.length_take]
    omega

/-- C8 witness: a one-line non-empty response still yields exactly the two
requested prompts. -/
theorem c8_prompt_count_witness :
    ("1. A minimalist white studio with soft natural lighting" ≠ "") ∧
    (generate_prompts "desk lamp" 2
      (Except.ok "1. A minimalist white studio with soft natural lighting")).length
      = 2 :=
  ⟨by decide,
   c8_prompt_count.1 "desk lamp" 2
     "1. A minimalist white studio with soft natural lighting" (by decide)⟩

def LoopResult.stateOf : LoopResult → LoopState
  | LoopResult.completed s => s
  | LoopResult.aborted s _ => s

theorem runLoopAux_allErr_composites (ctx : RunCtx) :
    ∀ (outcomes : List GenOutcome) (i : ℕ) (s : LoopState),
      outcomes.all GenOutcome.isErr = true →
      (runLoopAux ctx i s outcomes).stateOf.composites = s.composites := by
  intro outcomes
  induction outcomes with
  | nil => intro i s _; rfl
  | cons o rest ih =>
    intro i s hall
    simp only [List.all_cons, Bool.and_eq_true] at hall
    cases o with
    | ok bg => exact absurd hall.1 (by simp [GenOutcome.isErr])
    | err m =>
      simp only [runLoopAux]
      by_cases hne : m = ""
      · subst hne
        simp only [ne_eq, not_true_eq_false, if_false]
        exact ih (i + 1) _ hall.2
      · simp only [ne_eq, hne, not_false_eq_true, if_true]
        by_cases hf : creditsFatal m
        · rw [if_pos hf]
          rfl
        · rw [if_neg hf]
          exact ih (i + 1) _ hall.2

/-- C9: when every background-generation call in the loop fails, the run
reports failure, and the ZIP archive is produced only from a normally
completed loop with a non-empty composites list. -/
theorem c9_zero_success_no_archive :
    (∀ (ctx : RunCtx) (outcomes : List GenOutcome),
      outcomes.all GenOutcome.isErr = true →
      ∃ msg, finishRun (runLoopAux ctx 0 ⟨[], []⟩ outcomes) =
        AppResult.failure msg) ∧
    (∀ (r : LoopResult) (entries : List String),
      finishRun r = AppResult.archive entries →
      ∃ s, r = LoopResult.completed s ∧ s.composites ≠ []) := by
  constructor
  · intro ctx outcomes hall
    have h := runLoopAux_allErr_composites ctx outcomes 0 ⟨[], []⟩ hall
    cases hr : runLoopAux ctx 0 ⟨[], []⟩ outcomes with
    | completed s =>
      rw [hr] at h
      simp only [LoopResult.stateOf] at h
      refine ⟨"❌ Failed to generate any variations. Please check your API keys and try again.", ?_⟩
      simp [finishRun, h]
    | aborted s m =>
      exact ⟨"❌ " ++ m, rfl⟩
  · intro r entries harch
    cases r with
    | aborted s m => exact absurd harch (by simp [finishRun])
    | completed s =>
      refine ⟨s, rfl, ?_⟩
      intro hemp
      rw [show finishRun (LoopResult.completed s) = AppResult.failure "❌ Failed to generate any variations. Please check your API keys and try again." from by simp [finishRun, hemp]] at harch
      exact AppResult.noConfusion harch

/-- C9 witness: two failing variations produce a failure result, and a
completed loop with one composite produces the archive entries. -/
theorem c9_zero_success_no_archive_witness :
    ([GenOutcome.err "a", GenOutcome.err "b"].all GenOutcome.isErr = true ∧
      ∃ msg, finishRun (runLoopAux sampleCtx 0 ⟨[], []⟩
        [GenOutcome.err "a", GenOutcome.err "b"]) = AppResult.failure msg) ∧
    (finishRun (LoopResult.completed
        ⟨[⟨Img.mkNew 1 1 ⟨0, 0, 0, 0⟩, "cap", 1⟩], []⟩) =
      AppResult.archive ["ad_variation_1.png", "captions.txt"] ∧
      ∃ s, LoopResult.completed
          (⟨[⟨Img.mkNew 1 1 ⟨0, 0, 0, 0⟩, "cap", 1⟩], []⟩ : LoopState) =
        LoopResult.completed s ∧ s.composites ≠ []) :=
  ⟨⟨by decide,
    c9_zero_success_no_archive.1 sampleCtx
      [GenOutcome.err "a", GenOutcome.err "b"] (by decide)⟩,
   ⟨rfl,
    c9_zero_success_no_archive.2
      (LoopResult.completed ⟨[⟨Img.mkNew 1 1 ⟨0, 0, 0, 0⟩, "cap", 1⟩], []⟩)
      ["ad_variation_1.png", "captions.txt"] rfl⟩⟩

theorem append_ne_empty_left (s t : String) (h : s ≠ "") : s ++ t ≠ "" := by
  intro he
  apply h
  have hd := congrArg String.length he
  rw [String.length_append, String.length_empty] at hd
  have hs : s.length = 0 := by omega
  cases s with
  | mk data =>
    rw [String.length_mk, List.length_eq_zero] at hs
    rw [hs]

/-- C10: generate_background always returns either a successful image with no
error, or no image with a non-empty error message; never both and never
neither. -/
theorem c10_result_shape (decode : String → Except String Img)
    (apiKey : Option String) (call : CallOutcome) :
    (∃ img, generate_background decode apiKey call = (some img, none)) ∨
    (∃ m, generate_background decode apiKey call = (none, some m) ∧ m ≠ "") := by
  simp only [generate_background]
  by_cases hk : apiKey.getD "" = ""
  · rw [if_pos hk]
    exact Or.inr ⟨_, rfl, by decide⟩
  · rw [if_neg hk]
    cases call with
    | requestExc e =>
      exact Or.inr ⟨_, rfl, append_ne_empty_left "Network error: " e (by decide)⟩
    | otherExc e =>
      exact Or.inr ⟨_, rfl,
        append_ne_empty_left "Error generating background: " e (by decide)⟩
    | response r =>
      dsimp only
      by_cases h200 : r.status = 200
      · rw [if_pos h200]
        cases hart : r.artifacts with
        | none => exact Or.inr ⟨_, rfl, by decide⟩
        | some l =>
          cases l with
          | nil => exact Or.inr ⟨_, rfl, by decide⟩
          | cons b64 rest =>
            dsimp only
            cases hdec : decode b64 with
            | ok img => exact Or.inl ⟨img, rfl⟩
            | error e =>
              exact Or.inr ⟨_, rfl,
                append_ne_empty_left "Error generating background: " e (by decide)⟩
      · rw [if_neg h200]
        by_cases h402 : r.status = 402
        · rw [if_pos h402]
          exact Or.inr ⟨_, rfl, by decide⟩
        · rw [if_neg h402]
          by_cases h401 : r.status = 401
          · rw [if_pos h401]
            exact Or.inr ⟨_, rfl, by decide⟩
          · rw [if_neg h401]
            by_cases h429 : r.status = 429
            · rw [if_pos h429]
              exact Or.inr ⟨_, rfl, by decide⟩
            · rw [if_neg h429]
              exact Or.inr ⟨_, rfl,
                append_ne_empty_left ("API Error (" ++ toString r.status ++ "): ")
                  _ (append_ne_empty_left "API Error (" _ (by decide))⟩
